import Mathlib

/-!
Shallow embedding of the core of `src/port_manager.py` (linux-port-killer):
the port/process resolution and safe-termination engine.

The OS is modelled explicitly:
* the connection table handed back by `psutil.net_connections(kind='inet')`
  becomes a `List Conn`;
* the process table (`psutil.Process(pid)` together with `.name()` and
  `.cmdline()`) becomes a function `Nat → Option ProcInfo`, where `none`
  stands for the `NoSuchProcess` / `AccessDenied` exceptions that the
  enumeration loop swallows;
* the outcome of one signalling attempt in `kill_process` (the body of its
  `try` block for a given `force` flag) becomes a `KillOutcome` oracle
  `Bool → KillOutcome`.

Every definition mirrors the Python source; Python's truthiness tests
(`if conn.pid`, `if not conn.laddr.port`, `if cmdline`) are made explicit.
-/

/-- Python's `needle in haystack` substring test on strings. -/
def strIn (needle haystack : String) : Bool :=
  decide (needle.data <:+: haystack.data)

/-- Python's `s.lower()` (ASCII case folding, per character — process names
and command lines here are ASCII). -/
def pyLower (s : String) : String :=
  String.mk (s.data.map Char.toLower)

/-- Accumulating worker for `pySplit`: `cur` holds the characters of the
token being read, in reverse. -/
def pySplitAux : List Char → List Char → List String
  | [], cur => if cur = [] then [] else [String.mk cur.reverse]
  | c :: rest, cur =>
    if c.isWhitespace then
      if cur = [] then pySplitAux rest []
      else String.mk cur.reverse :: pySplitAux rest []
    else pySplitAux rest (c :: cur)

/-- Python's `s.split()`: split on whitespace runs, dropping empty tokens. -/
def pySplit (s : String) : List String :=
  pySplitAux s.data []

/-- Python's `s[:n]` on a string: the first `n` characters. -/
def pyTake (s : String) (n : Nat) : String :=
  String.mk (s.data.take n)

/-- Python's `' '.join(xs)`. -/
def pyJoin : List String → String
  | [] => ""
  | [x] => x
  | x :: xs => x ++ " " ++ pyJoin xs

/-- `PortProcess` dataclass from `port_manager.py`. -/
structure PortProcess where
  port : Nat
  pid : Nat
  process_name : String
  cmdline : String
  protocol : String
  status : String
  is_protected : Bool
deriving DecidableEq, Repr

/-- One entry of `psutil.net_connections(kind='inet')`: connection status,
optional local address (host, port), optional owning pid, and the numeric
socket type (`1` = `SOCK_STREAM`). -/
structure Conn where
  status : String
  laddr : Option (String × Nat)
  pid : Option Nat
  ty : Nat
deriving DecidableEq, Repr

/-- What `psutil.Process(pid).name()` / `.cmdline()` report for a live,
accessible process. -/
structure ProcInfo where
  name : String
  cmdline : List String
deriving DecidableEq, Repr

/-- `PortManager.PROTECTED_PROCESSES`. -/
def PROTECTED_PROCESSES : List String :=
  ["postgres", "postgresql", "mysqld", "mysql",
   "redis-server", "mongod", "nginx", "apache2"]

/-- `PortManager.DEV_PORT_RANGES`. -/
def DEV_PORT_RANGES : List (Nat × Nat) :=
  [(3000, 3999), (4200, 4299), (5000, 5999), (8000, 8999),
   (5173, 5173), (8080, 8080)]

/-- `PortManager.is_dev_port`. -/
def is_dev_port (port : Nat) : Bool :=
  DEV_PORT_RANGES.any (fun r => r.1 ≤ port && port ≤ r.2)

/-- The `is_protected` computation inside `get_listening_ports`:
`any(p in process_name.lower() for p in PROTECTED_PROCESSES)`. -/
def is_protected (process_name : String) : Bool :=
  PROTECTED_PROCESSES.any (fun p => strIn p (pyLower process_name))

/-- The VSCode / Electron-app block of `_humanize_cmdline` (each `return`
becomes `some`; falling out of the block is `none`). -/
def vscodeCheck (cmdline process_name : String) : Option String :=
  if strIn "code" (pyLower process_name) || strIn "/snap/code/" cmdline then
    if strIn "/proc/self/exe" cmdline && strIn "type=utility" cmdline then
      some "VSCode - Utility Process"
    else if strIn "/proc/self/exe" cmdline && strIn "type=renderer" cmdline then
      some "VSCode - Renderer Process"
    else if strIn "pylance" (pyLower cmdline) || strIn "vscode-pylance" cmdline then
      some "VSCode - Pylance Language Server"
    else if strIn "extensions" cmdline && strIn ".js" cmdline then
      if strIn "ms-python" cmdline then some "VSCode - Python Extension"
      else if strIn "ms-vscode" cmdline then some "VSCode - Extension Server"
      else some "VSCode - Extension Process"
    else none
  else none

/-- The generic Electron utility/renderer checks of `_humanize_cmdline`. -/
def electronCheck (cmdline process_name : String) : Option String :=
  if strIn "/proc/self/exe" cmdline && strIn "type=utility" cmdline then
    some (process_name ++ " - Utility Process")
  else if strIn "/proc/self/exe" cmdline && strIn "type=renderer" cmdline then
    some (process_name ++ " - Renderer Process")
  else none

/-- The Node.js block of `_humanize_cmdline`.  The `nodemon` / `ts-node`
branches reproduce Python's conditional-expression precedence:
`'Nodemon - ' + cmdline.split()[-1] if cmdline else 'Nodemon'` parses as
`('Nodemon - ' + cmdline.split()[-1]) if cmdline else 'Nodemon'`. -/
def nodeCheck (cmdline process_name : String) : Option String :=
  if strIn "node" (pyLower process_name) then
    if strIn "vite" (pyLower cmdline) then some "Vite Dev Server"
    else if strIn "webpack" (pyLower cmdline) then some "Webpack Dev Server"
    else if strIn "next" (pyLower cmdline) then some "Next.js Dev Server"
    else if strIn "react-scripts" (pyLower cmdline) then some "React Dev Server"
    else if strIn "vue-cli-service" (pyLower cmdline) then some "Vue Dev Server"
    else if strIn "nodemon" (pyLower cmdline) then
      if cmdline ≠ "" then some ("Nodemon - " ++ (pySplit cmdline).getLastD "")
      else some "Nodemon"
    else if strIn "ts-node" (pyLower cmdline) then
      if cmdline ≠ "" then
        some ("TypeScript Node - " ++ (pySplit cmdline).getLastD "")
      else some "TypeScript Node"
    else none
  else none

/-- The Python-servers block of `_humanize_cmdline`. -/
def pythonCheck (cmdline process_name : String) : Option String :=
  if strIn "python" (pyLower process_name) then
    if strIn "manage.py runserver" cmdline then some "Django Dev Server"
    else if strIn "flask run" cmdline || strIn "app.py" cmdline then
      some "Flask Dev Server"
    else if strIn "uvicorn" cmdline then some "Uvicorn (FastAPI/Starlette)"
    else if strIn "gunicorn" cmdline then some "Gunicorn WSGI Server"
    else none
  else none

/-- The Java/Spring block of `_humanize_cmdline`; the `.jar` branch extracts
`[p for p in cmdline.split() if '.jar' in p]` and embeds the first hit. -/
def javaCheck (cmdline process_name : String) : Option String :=
  if strIn "java" (pyLower process_name) then
    if strIn "spring" (pyLower cmdline) then some "Spring Boot Application"
    else if strIn ".jar" cmdline then
      some ("Java Application - "
        ++ (((pySplit cmdline).filter (fun p => strIn ".jar" p)).headD "jar"))
    else none
  else none

/-- The Docker check of `_humanize_cmdline` (note: `process_name` is tested
without lower-casing, as in the source). -/
def dockerCheck (_cmdline process_name : String) : Option String :=
  if strIn "docker-proxy" process_name then some "Docker Container Port Proxy"
  else none

/-- `PortManager._humanize_cmdline` as an early-return chain: `some label`
when one of the pattern checks fires, `none` when control reaches the final
`return cmdline`. -/
def humanizeHits (cmdline process_name : String) : Option String :=
  ((((((vscodeCheck cmdline process_name).orElse
    (fun _ => electronCheck cmdline process_name)).orElse
    (fun _ => nodeCheck cmdline process_name)).orElse
    (fun _ => pythonCheck cmdline process_name)).orElse
    (fun _ => javaCheck cmdline process_name)).orElse
    (fun _ => dockerCheck cmdline process_name))

/-- `PortManager._humanize_cmdline`: the matched label, or the original
command line unchanged. -/
def humanize_cmdline (cmdline process_name : String) : String :=
  (humanizeHits cmdline process_name).getD cmdline

/-- Key order used by `sorted(ports, key=lambda x: x.port)`. -/
@[reducible] def portLE (a b : PortProcess) : Prop :=
  a.port ≤ b.port

instance : DecidableRel portLE :=
  fun a b => Nat.decLe a.port b.port

instance : IsTotal PortProcess portLE :=
  ⟨fun a b => Nat.le_total a.port b.port⟩

instance : IsTrans PortProcess portLE :=
  ⟨fun _ _ _ h h2 => Nat.le_trans h h2⟩

/-- The per-connection body of the enumeration loop in
`PortManager.get_listening_ports`: `none` when the connection is skipped
(`continue`), `some` with the constructed `PortProcess` otherwise.
Python truthiness (`if conn.pid else None`, `not conn.laddr.port`) makes a
pid or port of `0` behave like an absent one. -/
def build_port_proc (conn : Conn) (procs : Nat → Option ProcInfo) :
    Option PortProcess :=
  if conn.status ≠ "LISTEN" then none
  else match conn.laddr with
    | none => none
    | some laddr =>
      if laddr.2 = 0 then none
      else match conn.pid with
        | none => none
        | some pid =>
          if pid = 0 then none
          else match procs pid with
            | none => none
            | some info =>
              let cmdline := pyJoin info.cmdline
              let cmdline_human := humanize_cmdline cmdline info.name
              some { port := laddr.2
                     pid := pid
                     process_name := info.name
                     cmdline := pyTake cmdline_human 150
                     protocol := if conn.ty = 1 then "TCP" else "UDP"
                     status := conn.status
                     is_protected := is_protected info.name }

/-- The `ports` list accumulated by the loop of `get_listening_ports`,
in discovery order (before the final sort). -/
def collect_ports (conns : List Conn) (procs : Nat → Option ProcInfo) :
    List PortProcess :=
  conns.filterMap (fun conn => build_port_proc conn procs)

/-- `PortManager.get_listening_ports`: the collected findings sorted
ascending by port.  Python's `sorted` is stable; `List.insertionSort` with
the non-strict key order `portLE` computes the same (unique) stable
reordering. -/
def get_listening_ports (conns : List Conn) (procs : Nat → Option ProcInfo) :
    List PortProcess :=
  List.insertionSort portLE (collect_ports conns procs)

/-- `PortManager.get_dev_ports`. -/
def get_dev_ports (conns : List Conn) (procs : Nat → Option ProcInfo) :
    List PortProcess :=
  (get_listening_ports conns procs).filter (fun p => is_dev_port p.port)

/-- Outcome of one signalling attempt in `PortManager.kill_process` (the
`try` block for a given `force` flag): the process exited within the 3 s
wait, the pid no longer exists (`NoSuchProcess`), the caller may not signal
it (`AccessDenied`), or the wait timed out (`TimeoutExpired`). -/
inductive KillOutcome where
  | exited
  | noSuchProcess
  | accessDenied
  | timeout
deriving DecidableEq, Repr

/-- `PortManager.kill_process`.  The OS behaviour is an oracle
`os : Bool → KillOutcome` giving the outcome of the attempt made with a
given `force` flag; the `TimeoutExpired` handler recurses with
`force = true` exactly as the source does. -/
def kill_process (os : Bool → KillOutcome) (force : Bool) : Bool :=
  match os force with
  | KillOutcome.exited => true
  | KillOutcome.noSuchProcess => true
  | KillOutcome.accessDenied => false
  | KillOutcome.timeout => if force then false else kill_process os true
termination_by (if force then 0 else 1)
decreasing_by simp_all

/-- The body of the loop in `PortManager.kill_all_dev_ports`: skip protected
findings, otherwise attempt `kill_process` and count a success. -/
def killStep (killos : Nat → Bool → KillOutcome) (force : Bool)
    (killed_count : Nat) (port_proc : PortProcess) : Nat :=
  if !port_proc.is_protected then
    if kill_process (killos port_proc.pid) force then killed_count + 1
    else killed_count
  else killed_count

/-- `PortManager.kill_all_dev_ports`.  `killos pid` is the kill-outcome
oracle for process `pid`. -/
def kill_all_dev_ports (conns : List Conn) (procs : Nat → Option ProcInfo)
    (killos : Nat → Bool → KillOutcome) (force : Bool) : Nat :=
  (get_dev_ports conns procs).foldl (killStep killos force) 0

/-- C2 counterexample: the claim asserts `is_dev_port 8081 = false` ("the
adjacent value 8081 is excluded"), but 8081 lies inside the inclusive range
8000–8999, so the code classifies it as a development port. -/
theorem is_dev_port_8081_counterexample : is_dev_port 8081 = true := by
  decide

/-- C2 (amended): `is_dev_port p` is true iff `p` lies in one of the six
fixed inclusive ranges 3000–3999, 4200–4299, 5000–5999, 8000–8999,
5173–5173, 8080–8080; the boundary values 3000, 3999, 4200, 4299, 5173,
8080 are included and the adjacent values 2999 and 4000 are excluded, while
8081 — although adjacent to the singleton range 8080–8080 — is included
because it lies in 8000–8999. -/
theorem is_dev_port_characterisation :
    (∀ p : Nat, is_dev_port p = true ↔
      ((3000 ≤ p ∧ p ≤ 3999) ∨ (4200 ≤ p ∧ p ≤ 4299) ∨
       (5000 ≤ p ∧ p ≤ 5999) ∨ (8000 ≤ p ∧ p ≤ 8999) ∨
       (5173 ≤ p ∧ p ≤ 5173) ∨ (8080 ≤ p ∧ p ≤ 8080))) ∧
    is_dev_port 3000 = true ∧ is_dev_port 3999 = true ∧
    is_dev_port 4200 = true ∧ is_dev_port 4299 = true ∧
    is_dev_port 5173 = true ∧ is_dev_port 8080 = true ∧
    is_dev_port 2999 = false ∧ is_dev_port 4000 = false ∧
    is_dev_port 8081 = true := by
  refine ⟨fun p => ?_, by decide, by decide, by decide, by decide, by decide,
    by decide, by decide, by decide, by decide⟩
  simp only [is_dev_port, DEV_PORT_RANGES, List.any_cons, List.any_nil,
    Bool.or_eq_true, Bool.and_eq_true, decide_eq_true_eq, Bool.false_eq_true,
    or_false]

/-- C3: `is_protected n` is true iff the lower-cased `n` contains one of the
eight protected substrings; in particular "mysqld_safe" is protected. -/
theorem is_protected_characterisation :
    (∀ n : String, is_protected n = true ↔
      ("postgres".data <:+: (pyLower n).data ∨
       "postgresql".data <:+: (pyLower n).data ∨
       "mysqld".data <:+: (pyLower n).data ∨
       "mysql".data <:+: (pyLower n).data ∨
       "redis-server".data <:+: (pyLower n).data ∨
       "mongod".data <:+: (pyLower n).data ∨
       "nginx".data <:+: (pyLower n).data ∨
       "apache2".data <:+: (pyLower n).data)) ∧
    is_protected "mysqld_safe" = true := by
  refine ⟨fun n => ?_, by decide⟩
  simp only [is_protected, PROTECTED_PROCESSES, strIn, List.any_cons,
    List.any_nil, Bool.or_eq_true, decide_eq_true_eq, Bool.false_eq_true,
    or_false]

/-- C5: `kill_process` on a pid whose attempt reports `NoSuchProcess`
(the process vanished or never existed) returns `true`, whatever the
`force` flag. -/
theorem kill_process_gone (os : Bool → KillOutcome) (force : Bool)
    (h : os force = KillOutcome.noSuchProcess) :
    kill_process os force = true := by
  rw [kill_process, h]

/-- C5 witness: both the graceful and the forced call succeed on a vanished
process. -/
theorem kill_process_gone_witness :
    kill_process (fun _ => KillOutcome.noSuchProcess) false = true ∧
    kill_process (fun _ => KillOutcome.noSuchProcess) true = true :=
  ⟨kill_process_gone (fun _ => KillOutcome.noSuchProcess) false rfl,
   kill_process_gone (fun _ => KillOutcome.noSuchProcess) true rfl⟩

/-- C6: `kill_process` on a pid whose attempt reports `AccessDenied`
returns `false`.  The oracle is otherwise unconstrained — in particular the
forced path `os true` is arbitrary when `force = false` — so the result is
independent of what a forced escalation would have done: no escalation
happens. -/
theorem kill_process_denied (os : Bool → KillOutcome) (force : Bool)
    (h : os force = KillOutcome.accessDenied) :
    kill_process os force = false := by
  rw [kill_process, h]

/-- C6 witness: permission denial on the graceful attempt returns `false`
even though a forced attempt would have succeeded — no escalation. -/
theorem kill_process_denied_witness :
    kill_process
      (fun b => if b then KillOutcome.exited else KillOutcome.accessDenied)
      false = false :=
  kill_process_denied
    (fun b => if b then KillOutcome.exited else KillOutcome.accessDenied)
    false rfl

/-- C7: a graceful (`force = false`) attempt that times out escalates
exactly once: the result is that of the same operation with `force = true`;
and a forced attempt that times out returns `false` with no further
escalation. -/
theorem kill_process_timeout_spec (os : Bool → KillOutcome)
    (h : os false = KillOutcome.timeout) :
    kill_process os false = kill_process os true ∧
    (os true = KillOutcome.timeout → kill_process os true = false) := by
  constructor
  · rw [kill_process, h]
    simp
  · intro h2
    rw [kill_process, h2]
    simp

/-- C7 witness: with an oracle that always times out, the graceful call
equals the forced call and the forced call fails. -/
theorem kill_process_timeout_witness :
    kill_process (fun _ => KillOutcome.timeout) false
      = kill_process (fun _ => KillOutcome.timeout) true ∧
    kill_process (fun _ => KillOutcome.timeout) true = false :=
  ⟨(kill_process_timeout_spec (fun _ => KillOutcome.timeout) rfl).1,
   (kill_process_timeout_spec (fun _ => KillOutcome.timeout) rfl).2 rfl⟩

/-- C8: `humanize_cmdline` is a pure Lean function, hence deterministic;
whenever no pattern of its ordered check sequence matches
(`humanizeHits = none`), it returns the original command line unchanged,
and is therefore idempotent on such strings. -/
theorem humanize_cmdline_default (cmdline process_name : String)
    (h : humanizeHits cmdline process_name = none) :
    humanize_cmdline cmdline process_name = cmdline ∧
    humanize_cmdline (humanize_cmdline cmdline process_name) process_name
      = humanize_cmdline cmdline process_name := by
  simp [humanize_cmdline, h]

/-- C8 witness: the spec's example `"myservice --config=/etc/x.conf"`
matches no pattern and humanizes to itself. -/
theorem humanize_cmdline_default_witness :
    humanize_cmdline "myservice --config=/etc/x.conf" "myservice"
      = "myservice --config=/etc/x.conf" :=
  (humanize_cmdline_default "myservice --config=/etc/x.conf" "myservice"
    (by decide)).1

/-- `killStep` when the finding is protected: nothing happens. -/
theorem killStep_protected (killos : Nat → Bool → KillOutcome) (force : Bool)
    (n : Nat) (a : PortProcess) (hp : a.is_protected = true) :
    killStep killos force n a = n := by
  simp [killStep, hp]

/-- `killStep` on a non-protected finding counts the success of its
`kill_process` call. -/
theorem killStep_free (killos : Nat → Bool → KillOutcome) (force : Bool)
    (n : Nat) (a : PortProcess) (hp : a.is_protected = false) :
    killStep killos force n a
      = if kill_process (killos a.pid) force then n + 1 else n := by
  simp [killStep, hp]

/-- The loop of `kill_all_dev_ports` over any list, starting from a given
count: it adds one per non-protected finding whose kill succeeded. -/
theorem killCount_eq (killos : Nat → Bool → KillOutcome) (force : Bool)
    (l : List PortProcess) (n : Nat) :
    l.foldl (killStep killos force) n
    = n + (l.filter
        (fun p => !p.is_protected && kill_process (killos p.pid) force)).length := by
  induction l generalizing n with
  | nil => simp
  | cons a t ih =>
    rw [List.foldl_cons, List.filter_cons]
    by_cases hp : a.is_protected = true
    · rw [killStep_protected killos force n a hp, ih,
        if_neg (by simp [hp])]
    · have hp2 : a.is_protected = false := by
        cases h : a.is_protected
        · rfl
        · exact absurd h hp
      rw [killStep_free killos force n a hp2]
      by_cases hk : kill_process (killos a.pid) force = true
      · rw [if_pos hk, if_pos (by simp [hp2, hk]), ih, List.length_cons]
        omega
      · have hk2 : kill_process (killos a.pid) force = false := by
          cases h : kill_process (killos a.pid) force
          · rfl
          · exact absurd h hk
        rw [if_neg (by simp [hk2]), if_neg (by simp [hk2]), ih]

/-- The loop of `kill_all_dev_ports` only consults the kill oracle at the
pids of non-protected findings. -/
theorem killCount_oracle_congr (killos killos2 : Nat → Bool → KillOutcome)
    (force : Bool) (l : List PortProcess) (n : Nat)
    (h : ∀ p ∈ l, p.is_protected = false →
      ∀ b, killos2 p.pid b = killos p.pid b) :
    l.foldl (killStep killos2 force) n = l.foldl (killStep killos force) n := by
  induction l generalizing n with
  | nil => rfl
  | cons a t ih =>
    rw [List.foldl_cons, List.foldl_cons]
    have htl : ∀ p ∈ t, p.is_protected = false →
        ∀ b, killos2 p.pid b = killos p.pid b :=
      fun p hm => h p (List.mem_cons_of_mem a hm)
    by_cases hp : a.is_protected = true
    · rw [killStep_protected killos2 force n a hp,
        killStep_protected killos force n a hp]
      exact ih n htl
    · have hp2 : a.is_protected = false := by
        cases hb : a.is_protected
        · rfl
        · exact absurd hb hp
      have hag : killos2 a.pid = killos a.pid :=
        funext (h a (List.mem_cons_self a t) hp2)
      rw [killStep_free killos2 force n a hp2,
        killStep_free killos force n a hp2, hag]
      exact ih _ htl

/-- C1: `kill_all_dev_ports` returns exactly the number of non-protected
development findings whose `kill_process` call succeeded, and never invokes
termination on a protected finding: its result is unchanged under any
modification of the kill oracle away from the pids of non-protected
findings (`killos2` may behave arbitrarily at protected findings' pids). -/
theorem kill_all_dev_ports_spec (conns : List Conn)
    (procs : Nat → Option ProcInfo) (killos killos2 : Nat → Bool → KillOutcome)
    (force : Bool)
    (h : ∀ p ∈ get_dev_ports conns procs, p.is_protected = false →
      ∀ b, killos2 p.pid b = killos p.pid b) :
    kill_all_dev_ports conns procs killos force
      = ((get_dev_ports conns procs).filter
          (fun p => !p.is_protected && kill_process (killos p.pid) force)).length
    ∧ kill_all_dev_ports conns procs killos2 force
      = kill_all_dev_ports conns procs killos force := by
  constructor
  · have := killCount_eq killos force (get_dev_ports conns procs) 0
    simpa [kill_all_dev_ports] using this
  · unfold kill_all_dev_ports
    exact killCount_oracle_congr killos killos2 force
      (get_dev_ports conns procs) 0 h

/-- Example OS connection table (spec §8 scenario, deliberately unsorted,
with entries the enumeration must skip: a non-LISTEN connection, a missing
pid and a zero pid). -/
def exConns : List Conn :=
  [{ status := "LISTEN", laddr := some ("0.0.0.0", 5432), pid := some 20, ty := 1 },
   { status := "LISTEN", laddr := some ("127.0.0.1", 3000), pid := some 10, ty := 1 },
   { status := "LISTEN", laddr := some ("0.0.0.0", 22), pid := some 5, ty := 1 },
   { status := "ESTABLISHED", laddr := some ("127.0.0.1", 9999), pid := some 30, ty := 1 },
   { status := "LISTEN", laddr := some ("127.0.0.1", 8081), pid := none, ty := 1 },
   { status := "LISTEN", laddr := some ("127.0.0.1", 8082), pid := some 0, ty := 1 }]

/-- Example process table for `exConns`. -/
def exProcs : Nat → Option ProcInfo :=
  fun pid =>
    if pid = 5 then some { name := "sshd", cmdline := ["/usr/sbin/sshd"] }
    else if pid = 10 then some { name := "node", cmdline := ["node", "server.js"] }
    else if pid = 20 then some { name := "postgres", cmdline := ["/usr/bin/postgres"] }
    else none

/-- Kill oracle for the examples: every attempt reports a clean exit. -/
def exKill : Nat → Bool → KillOutcome :=
  fun _ _ => KillOutcome.exited

/-- Kill oracle differing from `exKill` only at pid 20 — the pid of the
protected postgres finding. -/
def exKillP : Nat → Bool → KillOutcome :=
  fun pid _ => if pid = 20 then KillOutcome.accessDenied else KillOutcome.exited

/-- C1 witness: on the §8 scenario exactly one non-protected development
finding (node on port 3000) is terminated, and changing the oracle at the
protected postgres pid does not change the count. -/
theorem kill_all_dev_ports_spec_witness :
    kill_all_dev_ports exConns exProcs exKill false
      = ((get_dev_ports exConns exProcs).filter
          (fun p => !p.is_protected && kill_process (exKill p.pid) false)).length
    ∧ kill_all_dev_ports exConns exProcs exKillP false
      = kill_all_dev_ports exConns exProcs exKill false :=
  kill_all_dev_ports_spec exConns exProcs exKill exKillP false (by decide)

/-- Inserting `a` into `l` with `orderedInsert portLE` preserves, for every
key `k`, the subsequence of findings on port `k`: `a` lands in front of it
when `a.port = k` (every element passed over has a strictly smaller port),
and the subsequence is untouched otherwise. -/
theorem filter_port_orderedInsert (a : PortProcess) (l : List PortProcess)
    (k : Nat) :
    (List.orderedInsert portLE a l).filter (fun p => p.port == k)
      = if a.port = k then a :: l.filter (fun p => p.port == k)
        else l.filter (fun p => p.port == k) := by
  induction l with
  | nil =>
    by_cases h : a.port = k <;> simp [List.orderedInsert, h]
  | cons b t ih =>
    simp only [List.orderedInsert]
    by_cases hab : portLE a b
    · rw [if_pos hab]
      by_cases h : a.port = k <;> simp [List.filter_cons, h]
    · rw [if_neg hab]
      have hba : b.port < a.port := Nat.lt_of_not_le hab
      by_cases h : a.port = k
      · have hbk : ¬ b.port = k := by omega
        simp [List.filter_cons, hbk, ih, h]
      · simp only [List.filter_cons, ih, if_neg h]

/-- The sort in `get_listening_ports` is stable: for every key `k`, the
findings on port `k` appear in the sorted output exactly in their discovery
order. -/
theorem filter_port_insertionSort (l : List PortProcess) (k : Nat) :
    (List.insertionSort portLE l).filter (fun p => p.port == k)
      = l.filter (fun p => p.port == k) := by
  induction l with
  | nil => rfl
  | cons a t ih =>
    simp only [List.insertionSort, filter_port_orderedInsert, List.filter_cons]
    by_cases h : a.port = k <;> simp [h, ih]

/-- C4: for every OS connection ordering, `get_listening_ports` is sorted
ascending by port, and findings with equal ports keep their discovery order
(the order they have in the pre-sort `collect_ports` list): the sort is
stable. -/
theorem get_listening_ports_sorted_stable (conns : List Conn)
    (procs : Nat → Option ProcInfo) :
    (get_listening_ports conns procs).Sorted portLE ∧
    ∀ k : Nat,
      (get_listening_ports conns procs).filter (fun p => p.port == k)
        = (collect_ports conns procs).filter (fun p => p.port == k) :=
  ⟨List.sorted_insertionSort portLE (collect_ports conns procs),
   fun k => filter_port_insertionSort (collect_ports conns procs) k⟩

/-- A finding is only built from a connection whose pid is present and
nonzero (`psutil.Process(conn.pid) if conn.pid else None`). -/
theorem build_port_proc_pid_nonzero (conn : Conn)
    (procs : Nat → Option ProcInfo) (p : PortProcess)
    (h : build_port_proc conn procs = some p) : p.pid ≠ 0 := by
  unfold build_port_proc at h
  split at h
  · cases h
  · split at h
    · cases h
    · split at h
      · cases h
      · split at h
        · cases h
        · split at h
          · cases h
          · split at h
            · cases h
            · cases h
              simp_all

/-- A connection with an absent or zero pid produces no finding at all. -/
theorem build_port_proc_skip (conn : Conn) (procs : Nat → Option ProcInfo)
    (h : conn.pid.getD 0 = 0) : build_port_proc conn procs = none := by
  by_cases hs : conn.status ≠ "LISTEN"
  · simp [build_port_proc, hs]
  · rcases hl : conn.laddr with _ | laddr
    · simp [build_port_proc, hs, hl]
    · by_cases hp0 : laddr.2 = 0
      · simp [build_port_proc, hs, hl, hp0]
      · rcases hcp : conn.pid with _ | pid
        · simp [build_port_proc, hs, hl, hp0, hcp]
        · have hz : pid = 0 := by simpa [hcp] using h
          simp [build_port_proc, hs, hl, hp0, hcp, hz]

/-- Dropping the connections with an absent or zero pid from the OS table
does not change the collected findings. -/
theorem collect_ports_drop_bad (conns : List Conn)
    (procs : Nat → Option ProcInfo) :
    collect_ports (conns.filter (fun c => c.pid.getD 0 != 0)) procs
      = collect_ports conns procs := by
  unfold collect_ports
  induction conns with
  | nil => rfl
  | cons c t ih =>
    rw [List.filter_cons]
    by_cases h : c.pid.getD 0 = 0
    · rw [if_neg (by simp [h])]
      simp only [List.filterMap_cons, build_port_proc_skip c procs h]
      exact ih
    · rw [if_pos (by simpa using h)]
      simp only [List.filterMap_cons]
      cases hfc : build_port_proc c procs with
      | none => simp only [hfc, ih]
      | some b => simp only [hfc, ih]

/-- C10: every finding returned by `get_listening_ports` has a nonzero pid,
and connections whose reported pid is absent or zero contribute nothing:
removing them from the OS table leaves the output unchanged. -/
theorem get_listening_ports_pid_nonzero (conns : List Conn)
    (procs : Nat → Option ProcInfo) :
    (∀ p ∈ get_listening_ports conns procs, p.pid ≠ 0) ∧
    get_listening_ports conns procs
      = get_listening_ports (conns.filter (fun c => c.pid.getD 0 != 0)) procs := by
  constructor
  · intro p hp
    have hp2 : p ∈ collect_ports conns procs :=
      (List.perm_insertionSort portLE (collect_ports conns procs)).mem_iff.mp hp
    rcases List.mem_filterMap.mp hp2 with ⟨c, _, hc⟩
    exact build_port_proc_pid_nonzero c procs p hc
  · unfold get_listening_ports
    rw [collect_ports_drop_bad]

/-- C10 witness: the sshd finding of the example scenario has pid 5 ≠ 0. -/
theorem get_listening_ports_pid_nonzero_witness :
    ({ port := 22, pid := 5, process_name := "sshd",
       cmdline := "/usr/sbin/sshd", protocol := "TCP", status := "LISTEN",
       is_protected := false } : PortProcess).pid ≠ 0 :=
  (get_listening_ports_pid_nonzero exConns exProcs).1 _ (by decide)

/-- Two process-table entries agree up to command line: same availability
and same process name (the command lines may differ arbitrarily). -/
def sameName : Option ProcInfo → Option ProcInfo → Prop
  | none, none => True
  | some i, some j => i.name = j.name
  | _, _ => False

/-- Two findings agree on every field that classification and termination
read: port, pid, process name and protection flag (the humanized command
line is free to differ). -/
def sameKillView (a b : PortProcess) : Prop :=
  a.port = b.port ∧ a.pid = b.pid ∧ a.process_name = b.process_name ∧
  a.is_protected = b.is_protected

/-- `sameKillView` lifted to the optional result of `build_port_proc`. -/
def sameKillViewO : Option PortProcess → Option PortProcess → Prop
  | none, none => True
  | some a, some b => sameKillView a b
  | _, _ => False

/-- Building a finding from the same connection under two process tables
that agree up to command line yields findings that agree on port, pid,
name and protection flag. -/
theorem build_port_proc_congr (conn : Conn)
    (procs procs2 : Nat → Option ProcInfo)
    (h : ∀ pid, sameName (procs pid) (procs2 pid)) :
    sameKillViewO (build_port_proc conn procs) (build_port_proc conn procs2) := by
  by_cases hs : conn.status ≠ "LISTEN"
  · simp [build_port_proc, hs, sameKillViewO]
  · rcases hl : conn.laddr with _ | laddr
    · simp [build_port_proc, hs, hl, sameKillViewO]
    · by_cases hp0 : laddr.2 = 0
      · simp [build_port_proc, hs, hl, hp0, sameKillViewO]
      · rcases hcp : conn.pid with _ | pid
        · simp [build_port_proc, hs, hl, hp0, hcp, sameKillViewO]
        · by_cases hz : pid = 0
          · simp [build_port_proc, hs, hl, hp0, hcp, hz, sameKillViewO]
          · have hpid := h pid
            rcases h1 : procs pid with _ | i <;> rcases h2 : procs2 pid with _ | j
            · simp [build_port_proc, hs, hl, hp0, hcp, hz, h1, h2, sameKillViewO]
            · rw [h1, h2] at hpid
              simp [sameName] at hpid
            · rw [h1, h2] at hpid
              simp [sameName] at hpid
            · rw [h1, h2] at hpid
              have hname : i.name = j.name := hpid
              simp only [build_port_proc, hs, hl, hp0, hcp, hz, h1, h2,
                if_neg, ite_false, sameKillViewO, sameKillView]
              simp [hname]

/-- The discovery lists collected under two tables agreeing up to command
line are pointwise related by `sameKillView`. -/
theorem collect_ports_congr (conns : List Conn)
    (procs procs2 : Nat → Option ProcInfo)
    (h : ∀ pid, sameName (procs pid) (procs2 pid)) :
    List.Forall₂ sameKillView (collect_ports conns procs)
      (collect_ports conns procs2) := by
  unfold collect_ports
  induction conns with
  | nil => simp
  | cons c t ih =>
    simp only [List.filterMap_cons]
    have hc := build_port_proc_congr c procs procs2 h
    cases h1 : build_port_proc c procs <;> cases h2 : build_port_proc c procs2
    · exact ih
    · rw [h1, h2] at hc
      simp [sameKillViewO] at hc
    · rw [h1, h2] at hc
      simp [sameKillViewO] at hc
    · rw [h1, h2] at hc
      exact List.Forall₂.cons hc ih

/-- `orderedInsert portLE` acts identically on two `sameKillView`-related
lists (the comparison reads only the port, on which related findings
agree). -/
theorem orderedInsert_congr (a b : PortProcess) (l l2 : List PortProcess)
    (hab : sameKillView a b) (hl : List.Forall₂ sameKillView l l2) :
    List.Forall₂ sameKillView (List.orderedInsert portLE a l)
      (List.orderedInsert portLE b l2) := by
  induction hl with
  | nil => exact List.Forall₂.cons hab List.Forall₂.nil
  | cons hxy htl ih =>
    rename_i x y xs ys
    simp only [List.orderedInsert]
    have hax : portLE a x ↔ portLE b y := by
      have e1 : a.port = b.port := hab.1
      have e2 : x.port = y.port := hxy.1
      show a.port ≤ x.port ↔ b.port ≤ y.port
      omega
    by_cases hx : portLE a x
    · rw [if_pos hx, if_pos (hax.mp hx)]
      exact List.Forall₂.cons hab (List.Forall₂.cons hxy htl)
    · rw [if_neg hx, if_neg (fun hy => hx (hax.mpr hy))]
      exact List.Forall₂.cons hxy ih

/-- `insertionSort portLE` preserves `sameKillView`-relatedness. -/
theorem insertionSort_congr (l l2 : List PortProcess)
    (h : List.Forall₂ sameKillView l l2) :
    List.Forall₂ sameKillView (List.insertionSort portLE l)
      (List.insertionSort portLE l2) := by
  induction h with
  | nil => simp
  | cons hab htl ih =>
    simp only [List.insertionSort]
    exact orderedInsert_congr _ _ _ _ hab ih

/-- Filtering to development ports preserves `sameKillView`-relatedness
(the predicate reads only the port). -/
theorem filter_dev_congr (l l2 : List PortProcess)
    (h : List.Forall₂ sameKillView l l2) :
    List.Forall₂ sameKillView (l.filter (fun p => is_dev_port p.port))
      (l2.filter (fun p => is_dev_port p.port)) := by
  induction h with
  | nil => simp
  | cons hab htl ih =>
    rename_i a b xs ys
    simp only [List.filter_cons]
    rw [hab.1]
    by_cases hd : is_dev_port b.port = true
    · rw [if_pos hd, if_pos hd]
      exact List.Forall₂.cons hab ih
    · rw [if_neg hd, if_neg hd]
      exact ih

/-- The kill loop produces the same count on `sameKillView`-related lists:
it reads only pid and protection flag. -/
theorem killCount_view_congr (killos : Nat → Bool → KillOutcome)
    (force : Bool) (l l2 : List PortProcess)
    (h : List.Forall₂ sameKillView l l2) (n : Nat) :
    l.foldl (killStep killos force) n = l2.foldl (killStep killos force) n := by
  induction h generalizing n with
  | nil => rfl
  | cons hab htl ih =>
    rename_i a b xs ys
    rw [List.foldl_cons, List.foldl_cons]
    have hstep : killStep killos force n a = killStep killos force n b := by
      unfold killStep
      rw [hab.2.1, hab.2.2.2]
    rw [hstep]
    exact ih _

/-- C9: humanization never affects classification or termination.  For two
process tables that agree on availability and process names but may report
arbitrarily different command lines, the findings of the two runs agree
pointwise on port, pid, process name and protection flag (in particular the
derived `is_protected` flags are identical), and `kill_all_dev_ports`
returns the same count — its decisions depend only on port, pid and
`is_protected`, never on the humanized command line. -/
theorem humanization_noninterference (conns : List Conn)
    (procs procs2 : Nat → Option ProcInfo)
    (killos : Nat → Bool → KillOutcome) (force : Bool)
    (h : ∀ pid, sameName (procs pid) (procs2 pid)) :
    List.Forall₂ sameKillView (get_listening_ports conns procs)
      (get_listening_ports conns procs2) ∧
    kill_all_dev_ports conns procs killos force
      = kill_all_dev_ports conns procs2 killos force := by
  have h1 := collect_ports_congr conns procs procs2 h
  have h2 := insertionSort_congr _ _ h1
  refine ⟨h2, ?_⟩
  unfold kill_all_dev_ports get_dev_ports
  exact killCount_view_congr killos force _ _ (filter_dev_congr _ _ h2) 0

/-- Process table agreeing with `exProcs` on availability and names but
reporting a different command line for the node process (pid 10), which
humanizes to the different label "Vite Dev Server". -/
def exProcs2 : Nat → Option ProcInfo :=
  fun pid =>
    if pid = 5 then some { name := "sshd", cmdline := ["/usr/sbin/sshd"] }
    else if pid = 10 then
      some { name := "node", cmdline := ["node", "node_modules/.bin/vite"] }
    else if pid = 20 then some { name := "postgres", cmdline := ["/usr/bin/postgres"] }
    else none

/-- C9 witness: changing only the node process's command line (and hence
its humanized label) leaves the bulk-termination count unchanged. -/
theorem humanization_noninterference_witness :
    kill_all_dev_ports exConns exProcs exKill false
      = kill_all_dev_ports exConns exProcs2 exKill false :=
  (humanization_noninterference exConns exProcs exProcs2 exKill false
    (by
      intro pid
      by_cases h5 : pid = 5
      · simp [exProcs, exProcs2, h5, sameName]
      · by_cases h10 : pid = 10
        · simp [exProcs, exProcs2, h5, h10, sameName]
        · by_cases h20 : pid = 20
          · simp [exProcs, exProcs2, h5, h10, h20, sameName]
          · simp [exProcs, exProcs2, h5, h10, h20, sameName])).2
